import Mathlib

/-!
Verification development for the chrony exporter's protocol-client and
response-normalization layer (package `collector`).

The Go source is shallowly embedded: pure computations become Lean
functions, the channel of emitted metrics becomes an explicit list,
I/O performed by the chrony protocol client and the resolver becomes
oracle functions passed as parameters, and `float64` values whose
claim-relevant computations are exact (dyadic ratios, powers of two,
integer-valued casts) are modelled by `Rat`.  Machine integers are
modelled by `Nat` (resp. `Int` for signed fields) with truncating
casts written as explicit `% 2^w` where the source truncates.
-/

namespace Chrony

/-! ## Server statistics reply variants

Field sets of the chrony library's `ReplyServerStats`..`ReplyServerStats4`
(external wire contract consumed by `parseServerStatsPacket` in the
repository).  `uint32`/`uint64` counters are modelled as `Nat`; Go's
`uint64(x)` widening cast on a `uint32` value is the identity on `Nat`. -/

/-- Oldest server statistics variant, fields of the library's
`ReplyServerStats` (all `uint32`). -/
structure ReplyServerStats where
  NTPHits : Nat
  CMDHits : Nat
  NTPDrops : Nat
  CMDDrops : Nat
  LogDrops : Nat
  deriving DecidableEq

/-- Second server statistics variant (`ReplyServerStats2`). -/
structure ReplyServerStats2 where
  NTPHits : Nat
  NKEHits : Nat
  CMDHits : Nat
  NTPDrops : Nat
  NKEDrops : Nat
  CMDDrops : Nat
  LogDrops : Nat
  NTPAuthHits : Nat
  deriving DecidableEq

/-- Third server statistics variant (`ReplyServerStats3`). -/
structure ReplyServerStats3 where
  NTPHits : Nat
  NKEHits : Nat
  CMDHits : Nat
  NTPDrops : Nat
  NKEDrops : Nat
  CMDDrops : Nat
  LogDrops : Nat
  NTPAuthHits : Nat
  NTPInterleavedHits : Nat
  NTPTimestamps : Nat
  NTPSpanSeconds : Nat
  deriving DecidableEq

/-- Newest server statistics variant (`ReplyServerStats4`, all `uint64`);
also the canonical superset record produced by `parseServerStatsPacket`. -/
structure ReplyServerStats4 where
  NTPHits : Nat
  NKEHits : Nat
  CMDHits : Nat
  NTPDrops : Nat
  NKEDrops : Nat
  CMDDrops : Nat
  LogDrops : Nat
  NTPAuthHits : Nat
  NTPInterleavedHits : Nat
  NTPTimestamps : Nat
  NTPSpanSeconds : Nat
  NTPDaemonRxtimestamps : Nat
  NTPDaemonTxtimestamps : Nat
  NTPKernelRxtimestamps : Nat
  NTPKernelTxtimestamps : Nat
  NTPHwRxTimestamps : Nat
  NTPHwTxTimestamps : Nat
  deriving DecidableEq

/-! ## Other reply packets and the reply union -/

/-- Abstract model of a `net.IP` value as the decoders consume it:
its `String()` rendering, whether it is the unspecified (zero) address,
whether `To4()` is non-nil, and its big-endian 32-bit encoding (used
for `RefidToString` on IPv4 reference-clock addresses). -/
structure IPAddr where
  repr : String
  isUnspecified : Bool
  isV4 : Bool
  be32 : Nat
  deriving DecidableEq

/-- Source operating mode (`chrony.ModeType` values used by the code). -/
inductive SourceMode where
  | client
  | peer
  | ref
  deriving DecidableEq

/-- Source state (`chrony.SourceStateType`). -/
inductive SourceState where
  | sync
  | unreach
  | falseticker
  | jittery
  | candidate
  | outlier
  deriving DecidableEq

/-- String rendering of a source mode, modelled from the chrony
library's `ModeType.String` (external collaborator). -/
def sourceModeStr : SourceMode → String
  | .client => "client"
  | .peer => "peer"
  | .ref => "reference clock"

/-- String rendering of a source state, modelled from the chrony
library's `SourceStateType.String` (external collaborator). -/
def sourceStateStr : SourceState → String
  | .sync => "sync"
  | .unreach => "unreach"
  | .falseticker => "falseticker"
  | .jittery => "jittery"
  | .candidate => "candidate"
  | .outlier => "outlier"

/-- Fields of the library's `ReplySourceData` consumed by
`getSourcesMetrics`.  `Reachability` is a `uint16` in the library (the
code truncates it with `uint8(...)`), `SinceSample` a `uint32`,
`Poll` a signed integer, and the measurement fields `float64`
(modelled as `Rat`). -/
structure ReplySourceData where
  IPAddr : IPAddr
  Poll : Int
  Stratum : Nat
  State : SourceState
  Mode : SourceMode
  Reachability : Nat
  SinceSample : Nat
  LatestMeas : Rat
  LatestMeasErr : Rat
  deriving DecidableEq

/-- The sources count reply (`ReplySources`); `NSources` is the number
of configured sources reported by the daemon. -/
structure ReplySources where
  NSources : Nat
  deriving DecidableEq

/-- Fields of the library's `Tracking` record consumed by
`chronyFormatName`. -/
structure Tracking where
  IPAddr : IPAddr
  RefID : Nat
  deriving DecidableEq

/-- Closed union of the reply packets (`chrony.ResponsePacket`) that the
decoders in this repository dispatch on; the Go type switch over the
dynamic packet type becomes a match on this inductive. -/
inductive ResponsePacket where
  | sources (r : ReplySources)
  | sourceData (r : ReplySourceData)
  | trackingPkt (t : Tracking)
  | serverStats (r : ReplyServerStats)
  | serverStats2 (r : ReplyServerStats2)
  | serverStats3 (r : ReplyServerStats3)
  | serverStats4 (r : ReplyServerStats4)
  deriving DecidableEq

/-! ## parseServerStatsPacket (src/unnamed/part_002, lines 200-236) -/

/-- Embedding of `parseServerStatsPacket`: switch on the reply variant,
copy the fields the variant carries into a zero-initialised
`ReplyServerStats4` (Go's `var serverStats chrony.ReplyServerStats4`
starts at the zero value), and reject every other packet type with an
error. -/
def parseServerStatsPacket : ResponsePacket → Except String ReplyServerStats4
  | .serverStats stats =>
    .ok { NTPHits := stats.NTPHits, NKEHits := 0, CMDHits := stats.CMDHits,
          NTPDrops := stats.NTPDrops, NKEDrops := 0, CMDDrops := stats.CMDDrops,
          LogDrops := stats.LogDrops, NTPAuthHits := 0, NTPInterleavedHits := 0,
          NTPTimestamps := 0, NTPSpanSeconds := 0,
          NTPDaemonRxtimestamps := 0, NTPDaemonTxtimestamps := 0,
          NTPKernelRxtimestamps := 0, NTPKernelTxtimestamps := 0,
          NTPHwRxTimestamps := 0, NTPHwTxTimestamps := 0 }
  | .serverStats2 stats =>
    .ok { NTPHits := stats.NTPHits, NKEHits := stats.NKEHits, CMDHits := stats.CMDHits,
          NTPDrops := stats.NTPDrops, NKEDrops := stats.NKEDrops, CMDDrops := stats.CMDDrops,
          LogDrops := stats.LogDrops, NTPAuthHits := stats.NTPAuthHits,
          NTPInterleavedHits := 0, NTPTimestamps := 0, NTPSpanSeconds := 0,
          NTPDaemonRxtimestamps := 0, NTPDaemonTxtimestamps := 0,
          NTPKernelRxtimestamps := 0, NTPKernelTxtimestamps := 0,
          NTPHwRxTimestamps := 0, NTPHwTxTimestamps := 0 }
  | .serverStats3 stats =>
    .ok { NTPHits := stats.NTPHits, NKEHits := stats.NKEHits, CMDHits := stats.CMDHits,
          NTPDrops := stats.NTPDrops, NKEDrops := stats.NKEDrops, CMDDrops := stats.CMDDrops,
          LogDrops := stats.LogDrops, NTPAuthHits := stats.NTPAuthHits,
          NTPInterleavedHits := stats.NTPInterleavedHits,
          NTPTimestamps := stats.NTPTimestamps, NTPSpanSeconds := stats.NTPSpanSeconds,
          NTPDaemonRxtimestamps := 0, NTPDaemonTxtimestamps := 0,
          NTPKernelRxtimestamps := 0, NTPKernelTxtimestamps := 0,
          NTPHwRxTimestamps := 0, NTPHwTxTimestamps := 0 }
  | .serverStats4 stats => .ok stats
  | _ => .error "invalid 'serverstats' packet type"

/-- Discriminator for the four packet types `parseServerStatsPacket`
recognizes. -/
def isServerStatsReply : ResponsePacket → Bool
  | .serverStats _ => true
  | .serverStats2 _ => true
  | .serverStats3 _ => true
  | .serverStats4 _ => true
  | _ => false

/-! ## Metrics

One constructor per metric family the claims touch; the value is the
`float64` passed to `mustNewConstMetric`, modelled as `Rat`, and the
strings are the label values. -/

/-- A metric observation sent on the collect channel. -/
inductive Metric where
  | up (v : Rat)
  | sourcesLastRx (addr nm : String) (v : Rat)
  | sourcesReachability (addr nm : String) (v : Rat)
  | sourcesReachSuccess (addr nm : String) (v : Rat)
  | sourcesLastSample (addr nm : String) (v : Rat)
  | sourcesLastSampleErr (addr nm : String) (v : Rat)
  | sourcesPollInterval (addr nm : String) (v : Rat)
  | sourcesStateInfo (addr nm st md : String) (v : Rat)
  | sourcesStratum (addr nm : String) (v : Rat)
  deriving DecidableEq

/-! ## Exporter configuration (collector.go, `Exporter`) -/

/-- The exporter's configuration fields consumed by the embedded code
paths (timeout and logger omitted: the former only parameterises I/O
deadlines, the latter only logging). -/
structure Exporter where
  address : String
  collectSources : Bool
  collectTracking : Bool
  collectServerstats : Bool
  chmodSocket : Bool
  dnsLookups : Bool
  deriving DecidableEq

/-! ## Name resolution (collector.go lines 192-209, tracking.go lines 165-178)

Reverse DNS is I/O; it is embedded as an oracle
`lookup : String → Option (List String)` where `none` models
`net.LookupAddr` returning an error and `some names` a successful
lookup. -/

/-- Embedding of `strings.TrimRight(name, ".")`: remove every trailing
dot. -/
def trimRightDot (s : String) : String :=
  String.mk ((s.data.reverse.dropWhile (fun c => c = '.')).reverse)

/-- Byte-wise lexicographic order on char lists, the order `sort.Strings`
uses (identical to char-wise order on these ASCII names). -/
def listLe : List Char → List Char → Bool
  | [], _ => true
  | _ :: _, [] => false
  | a :: as, b :: bs =>
    if a.toNat < b.toNat then true
    else if b.toNat < a.toNat then false
    else listLe as bs

/-- Lexicographic order on strings (see `listLe`). -/
def strLe (a b : String) : Bool := listLe a.data b.data

/-- Insert into a sorted list, preserving order. -/
def insertSorted (x : String) : List String → List String
  | [] => [x]
  | y :: ys => if strLe x y then x :: y :: ys else y :: insertSorted x ys

/-- Embedding of `sort.Strings`: the sorted permutation of the input
(implemented as insertion sort, extensionally the same list). -/
def sortStrings (l : List String) : List String := l.foldr insertSorted []

/-- Embedding of `slices.Compact`: remove adjacent duplicates. -/
def compact : List String → List String
  | [] => []
  | [a] => [a]
  | a :: b :: rest => if a = b then compact (b :: rest) else a :: compact (b :: rest)

/-- Embedding of `strings.Join(names, ",")`. -/
def joinComma : List String → String
  | [] => ""
  | [x] => x
  | x :: xs => x ++ "," ++ joinComma xs

/-- Modelled from the chrony library's `RefidToString` (external
collaborator): render the printable ASCII bytes of the big-endian
32-bit reference id. -/
def refidToString (refid : Nat) : String :=
  let bytes := [refid / 2 ^ 24 % 256, refid / 2 ^ 16 % 256, refid / 2 ^ 8 % 256, refid % 256]
  String.mk ((bytes.filter (fun c => 32 ≤ c && c ≤ 126)).map (fun c => Char.ofNat c))

/-- Embedding of `Exporter.dnsLookup` (collector.go lines 192-209): with
lookups disabled or a failed/empty lookup return the literal address
string; otherwise strip each name's trailing root-domain dots, sort,
remove adjacent duplicates, and join with commas. -/
def dnsLookup (e : Exporter) (lookup : String → Option (List String)) (address : String) :
    String :=
  if !e.dnsLookups then address
  else
    match lookup address with
    | none => address
    | some names =>
      if names.length < 1 then address
      else joinComma (compact (sortStrings (names.map trimRightDot)))

/-- Embedding of `Exporter.chronyFormatName` (tracking.go lines 165-178):
unspecified address renders the refid tag; with lookups disabled or a
failed/empty lookup return the literal address; otherwise return the
FIRST returned name stripped of trailing dots. -/
def chronyFormatName (e : Exporter) (lookup : String → Option (List String))
    (tracking : Tracking) : String :=
  if tracking.IPAddr.isUnspecified then refidToString tracking.RefID
  else if !e.dnsLookups then tracking.IPAddr.repr
  else
    match lookup tracking.IPAddr.repr with
    | none => tracking.IPAddr.repr
    | some [] => tracking.IPAddr.repr
    | some (n :: _) => trimRightDot n

/-! ## Sources query (sources.go lines 254-304) -/

/-- Request packets the embedded queries send. -/
inductive Request where
  | sources
  | sourceData (i : Nat)
  | trackingReq
  | serverStatsReq
  deriving DecidableEq

/-- Population count of the low 8 bits (embedding of
`bits.OnesCount8`). -/
def popCount8 (r : Nat) : Nat :=
  (List.range 8).countP (fun i => r.testBit i)

/-- Embedding of the metric-emission loop body of `getSourcesMetrics`
(sources.go lines 281-301): the eight metrics sent for one source
record, in send order.  `uint8(r.Reachability)` is the truncation
`% 256`; `& 1` is `% 2`; `math.Pow(2, float64(r.Poll))` is the exact
dyadic power `(2 : Rat) ^ r.Poll`. -/
def sourceRecordMetrics (e : Exporter) (lookup : String → Option (List String))
    (r : ReplySourceData) : List Metric :=
  let sourceAddress := r.IPAddr.repr
  let nm :=
    if r.Mode = SourceMode.ref ∧ r.IPAddr.isV4 = true then refidToString r.IPAddr.be32
    else dnsLookup e lookup sourceAddress
  let reachByte := r.Reachability % 256
  [ Metric.sourcesLastRx sourceAddress nm (r.SinceSample : Rat),
    Metric.sourcesReachability sourceAddress nm ((popCount8 reachByte : Rat) / 8),
    Metric.sourcesReachSuccess sourceAddress nm ((reachByte % 2 : Nat) : Rat),
    Metric.sourcesLastSample sourceAddress nm r.LatestMeas,
    Metric.sourcesLastSampleErr sourceAddress nm r.LatestMeasErr,
    Metric.sourcesPollInterval sourceAddress nm ((2 : Rat) ^ r.Poll),
    Metric.sourcesStateInfo sourceAddress nm (sourceStateStr r.State) (sourceModeStr r.Mode) 1,
    Metric.sourcesStratum sourceAddress nm (r.Stratum : Rat) ]

/-- Embedding of the per-index fetch loop of `getSourcesMetrics`
(sources.go lines 268-279): fetch detail records for indices
`i, i+1, ...` (`n` remaining), failing on a communication error or a
reply of the wrong type. -/
def fetchSourcesFrom (comm : Request → Except String ResponsePacket) (i : Nat) :
    Nat → Except String (List ReplySourceData)
  | 0 => .ok []
  | n + 1 =>
    match comm (.sourceData i) with
    | .error _ => .error "Failed to get sourcedata response"
    | .ok p =>
      match p with
      | .sourceData d =>
        match fetchSourcesFrom comm (i + 1) n with
        | .error msg => .error msg
        | .ok rest => .ok (d :: rest)
      | _ => .error "Got wrong 'sourcedata' response"

/-- Embedding of `Exporter.getSourcesMetrics` (sources.go lines 254-304).
The result is the pair (metrics sent on the channel, error): in the Go
code every send happens after the whole fetch loop has succeeded, so
each error path sends nothing. -/
def getSourcesMetrics (e : Exporter) (comm : Request → Except String ResponsePacket)
    (lookup : String → Option (List String)) : List Metric × Option String :=
  match comm .sources with
  | .error msg => ([], some msg)
  | .ok p =>
    match p with
    | .sources s =>
      match fetchSourcesFrom comm 0 s.NSources with
      | .error msg => ([], some msg)
      | .ok results => (results.flatMap (sourceRecordMetrics e lookup), none)
    | _ => ([], some "Got wrong 'sources' response")

/-- A failed source-detail round trip: either the communication itself
errors or the reply is not a `ReplySourceData`. -/
def badDetail : Except String ResponsePacket → Bool
  | .error _ => true
  | .ok (.sourceData _) => false
  | .ok _ => true

/-! ## Local peer path (collector.go lines 116-124)

`dial` computes the local unixgram peer path as
`path.Join(path.Split(remote).dir, fmt.Sprintf("chrony_exporter.%d.sock", os.Getpid()))`. -/

/-- Decimal digits of a natural number, most significant first
(embedding of `%d`); the fuel argument makes the recursion structural
so the kernel can evaluate it, and `fuel = n + 1` always suffices. -/
def decDigitsAux : Nat → Nat → List Nat
  | 0, _ => []
  | fuel + 1, n => if n < 10 then [n] else decDigitsAux fuel (n / 10) ++ [n % 10]

/-- Decimal digits of `n`, most significant first. -/
def decDigits (n : Nat) : List Nat := decDigitsAux (n + 1) n

/-- Recombine a most-significant-first decimal digit list. -/
def ofDecDigits (ds : List Nat) : Nat := ds.foldl (fun a d => 10 * a + d) 0

/-- Embedding of `fmt.Sprintf("%d", n)`: decimal rendering of a
natural number. -/
def decRepr (n : Nat) : String := String.mk ((decDigits n).map Nat.digitChar)

/-- Embedding of the `dir` component of `path.Split`: everything up to
and including the final slash (empty when the path has no slash). -/
def splitDir (s : String) : String :=
  String.mk ((s.data.reverse.dropWhile (fun c => c ≠ '/')).reverse)

/-- Embedding of `strings.HasPrefix(address, "unix:\x2f\x2f")`: the
scheme test `dial` performs, written on the character lists so that it
evaluates by kernel reduction. -/
def isUnixAddr (address : String) : Bool :=
  "unix://".data.isPrefixOf address.data

/-- Embedding of the `strings.TrimPrefix` call in `dial` (the scheme
marker is 7 characters, all ASCII). -/
def stripScheme (address : String) : String :=
  if isUnixAddr address then String.mk (address.data.drop 7) else address

/-- Embedding of the local peer path computed by `dial`
(collector.go lines 118-120): the daemon socket's directory joined
with `chrony_exporter.<pid>.sock`.  `path.Join` is modelled as plain
concatenation, which agrees with Go on the already-clean directory
returned by `path.Split` (the split keeps its trailing slash and the
appended element contains no separators, so `Clean` is the
identity). -/
def dialLocalPath (address : String) (pid : Nat) : String :=
  splitDir (stripScheme address) ++ ("chrony_exporter." ++ decRepr pid ++ ".sock")

/-- The peer path as a function of the scrape: the scrape identity
(the process-wide `scrapeID` counter) plays no part in the path, which
depends only on the address directory and `os.Getpid()`
(collector.go line 120); the ghost `scrape` argument records this. -/
def scrapeLocalPath (address : String) (pid : Nat) (_scrape : Nat) : String :=
  dialLocalPath address pid

/-! ## Transport and scrape orchestration (collector.go lines 116-190)

The dial and the three queries perform I/O; their outcomes are oracle
fields of a `World`.  The resources owned by one scrape, the local
peer-path file and the connection, are a small explicit state, and the
three cleanup closures `dial` can return are a small closed type. -/

/-- Resources owned by one scrape. -/
structure ResState where
  sockFile : Bool
  connOpen : Bool
  deriving DecidableEq

/-- The cleanup closure returned by `dial`: `func() {}`,
`func() { os.Remove(local) }`, or
`func() { conn.Close(); os.Remove(local) }`. -/
inductive Cleanup where
  | noop
  | removeOnly
  | closeAndRemove
  deriving DecidableEq

/-- Effect of running a cleanup closure on the scrape's resources. -/
def runCleanup : Cleanup → ResState → ResState
  | .noop, s => s
  | .removeOnly, s => { s with sockFile := false }
  | .closeAndRemove, _ => { sockFile := false, connOpen := false }

/-- Oracle outcomes for one scrape: the transport steps that can fail
and the three query outcomes (each query either fails, emitting
nothing, or succeeds with its metrics; in every query function of the
repository all sends happen after the last error return). -/
structure World where
  unixDialOk : Bool
  bindLeftFile : Bool
  chmodOk : Bool
  udpDialOk : Bool
  sourcesResult : Except String (List Metric)
  trackingResult : Except String (List Metric)
  serverstatsResult : Except String (List Metric)

/-- What `dial` returns: whether a connection came back, the error,
the cleanup closure, and the resource state `dial` leaves behind. -/
structure DialResult where
  conn : Bool
  err : Option String
  cleanup : Cleanup
  state : ResState
  deriving DecidableEq

/-- Embedding of `Exporter.dial` (collector.go lines 116-142).  In
unixgram mode a failed `DialUnix` may or may not have created the
local socket file (`bindLeftFile`); success creates it and opens the
connection; a failed `Chmod` (only attempted with `chmodSocket`) still
returns the close-and-remove cleanup.  In UDP mode no file exists and
the cleanup closure does nothing. -/
def dial (e : Exporter) (w : World) : DialResult :=
  if isUnixAddr e.address then
    if !w.unixDialOk then
      { conn := false, err := some "dial error", cleanup := .removeOnly,
        state := { sockFile := w.bindLeftFile, connOpen := false } }
    else if e.chmodSocket && !w.chmodOk then
      { conn := false, err := some "chmod error", cleanup := .closeAndRemove,
        state := { sockFile := true, connOpen := true } }
    else
      { conn := true, err := none, cleanup := .closeAndRemove,
        state := { sockFile := true, connOpen := true } }
  else
    if !w.udpDialOk then
      { conn := false, err := some "udp dial error", cleanup := .noop,
        state := { sockFile := false, connOpen := false } }
    else
      { conn := true, err := none, cleanup := .noop,
        state := { sockFile := false, connOpen := true } }

/-- Which queries a scrape ran. -/
inductive QueryKind where
  | sources
  | tracking
  | serverstats
  deriving DecidableEq

/-- One `if e.collectX { err = e.getXMetrics(...); if err != nil { up = 0 } }`
block: (metrics emitted, whether the query failed, whether it was
attempted). -/
def runQuery (enabled : Bool) (res : Except String (List Metric)) :
    List Metric × Bool × Bool :=
  if enabled then
    match res with
    | .ok ms => (ms, false, true)
    | .error _ => ([], true, true)
  else ([], false, false)

/-- Observable trace of one `Collect` call: the metrics sent on the
channel in order, the availability value, the queries attempted, how
many times the cleanup closure ran, and the final resource state. -/
structure Trace where
  metrics : List Metric
  up : Rat
  attempted : List QueryKind
  cleanupRuns : Nat
  final : ResState

/-- Embedding of `Exporter.Collect` (collector.go lines 145-190):
`up` starts at 0 and its emission is deferred to the very end; `dial`
runs and its cleanup is deferred (running before the `up` emission,
LIFO); a dial error returns immediately with only the availability
metric; otherwise `up` becomes 1, each enabled query runs in order
(sources, tracking, serverstats) and a failure downgrades `up` to 0
without stopping the remaining queries. -/
def Collect (e : Exporter) (w : World) : Trace :=
  let d := dial e w
  match d.err with
  | some _ =>
    { metrics := [Metric.up 0], up := 0, attempted := [], cleanupRuns := 1,
      final := runCleanup d.cleanup d.state }
  | none =>
    let q1 := runQuery e.collectSources w.sourcesResult
    let q2 := runQuery e.collectTracking w.trackingResult
    let q3 := runQuery e.collectServerstats w.serverstatsResult
    let u : Rat := if q1.2.1 || q2.2.1 || q3.2.1 then 0 else 1
    { metrics := q1.1 ++ q2.1 ++ q3.1 ++ [Metric.up u], up := u,
      attempted :=
        (if q1.2.2 then [QueryKind.sources] else []) ++
        (if q2.2.2 then [QueryKind.tracking] else []) ++
        (if q3.2.2 then [QueryKind.serverstats] else []),
      cleanupRuns := 1,
      final := runCleanup d.cleanup d.state }

/-- Success test for a query outcome. -/
def qOk : Except String (List Metric) → Bool
  | .ok _ => true
  | .error _ => false

/-! ## Concrete fixtures used to instantiate theorems with hypotheses -/

/-- A concrete IPv4 source address. -/
def ipFix : IPAddr :=
  { repr := "192.0.2.1", isUnspecified := false, isV4 := true, be32 := 3221225985 }

/-- Exporter with reverse lookups disabled, all collectors enabled. -/
def eOff : Exporter :=
  { address := "[::1]:323", collectSources := true, collectTracking := true,
    collectServerstats := true, chmodSocket := false, dnsLookups := false }

/-- Exporter with reverse lookups enabled. -/
def eOn : Exporter :=
  { address := "[::1]:323", collectSources := true, collectTracking := true,
    collectServerstats := true, chmodSocket := false, dnsLookups := true }

/-- Exporter pointed at the daemon's local command socket. -/
def eUnix : Exporter :=
  { address := "unix:///run/chrony/chronyd.sock", collectSources := true,
    collectTracking := true, collectServerstats := true, chmodSocket := true,
    dnsLookups := false }

/-- Resolver oracle whose every lookup fails. -/
def lookupNone : String → Option (List String) := fun _ => none

/-- Resolver oracle returning two names, unsorted and with trailing
root-domain dots. -/
def lookupTwoNames : String → Option (List String) :=
  fun _ => some ["b.example.", "a.example."]

/-- Resolver oracle returning exactly one name. -/
def lookupOneName : String → Option (List String) := fun _ => some ["c.example."]

/-- A source record with the given poll exponent and reachability
byte. -/
def pollRec (p : Int) (b : Nat) : ReplySourceData :=
  { IPAddr := ipFix, Poll := p, Stratum := 2, State := .sync, Mode := .client,
    Reachability := b, SinceSample := 10, LatestMeas := 0, LatestMeasErr := 0 }

/-- A tracking record with a specific (non-unspecified) peer address. -/
def tFix : Tracking := { IPAddr := ipFix, RefID := 0 }

/-- World where the transport connects but the tracking query fails. -/
def wPartial : World :=
  { unixDialOk := true, bindLeftFile := false, chmodOk := true, udpDialOk := true,
    sourcesResult := .ok [], trackingResult := .error "tracking failed",
    serverstatsResult := .ok [] }

/-- World where the dial itself fails. -/
def wDialFail : World :=
  { unixDialOk := false, bindLeftFile := true, chmodOk := true, udpDialOk := false,
    sourcesResult := .ok [], trackingResult := .ok [], serverstatsResult := .ok [] }

/-- Protocol oracle answering the sources-count request with a packet
of the wrong type. -/
def commWrongSources : Request → Except String ResponsePacket := fun rq =>
  match rq with
  | .sources => .ok (.trackingPkt tFix)
  | _ => .error "unused"

/-- Protocol oracle answering the detail request for every index with a
packet of the wrong type. -/
def commWrongDetail : Request → Except String ResponsePacket := fun rq =>
  match rq with
  | .sources => .ok (.sources { NSources := 1 })
  | .sourceData _ => .ok (.trackingPkt tFix)
  | _ => .error "unused"

/-- Protocol oracle reporting two sources but timing out on every
detail round trip. -/
def commDetailErr : Request → Except String ResponsePacket := fun rq =>
  match rq with
  | .sources => .ok (.sources { NSources := 2 })
  | _ => .error "timeout"

end Chrony

namespace Chrony

/-! ## Helper lemmas -/

/-- Recombining the decimal digit list of `n` gives back `n`. -/
theorem ofDecDigits_decDigitsAux :
    ∀ (fuel n : Nat), n < fuel → ofDecDigits (decDigitsAux fuel n) = n := by
  intro fuel
  induction fuel with
  | zero => intro n h; omega
  | succ f ih =>
    intro n h
    by_cases h10 : n < 10
    · simp [decDigitsAux, h10, ofDecDigits]
    · have hdiv : n / 10 < n := Nat.div_lt_self (by omega) (by omega)
      have hf : n / 10 < f := by omega
      simp only [decDigitsAux, h10, if_false, ofDecDigits] at *
      rw [List.foldl_append]
      have hih := ih (n / 10) hf
      simp only [ofDecDigits] at hih
      simp only [List.foldl_cons, List.foldl_nil, hih]
      omega

/-- Every entry of the decimal digit list is a digit. -/
theorem decDigitsAux_lt_ten :
    ∀ (fuel n d : Nat), d ∈ decDigitsAux fuel n → d < 10 := by
  intro fuel
  induction fuel with
  | zero => intro n d hmem; simp [decDigitsAux] at hmem
  | succ f ih =>
    intro n d hmem
    by_cases h10 : n < 10
    · simp [decDigitsAux, h10] at hmem; omega
    · simp only [decDigitsAux, h10, if_false, List.mem_append, List.mem_singleton] at hmem
      rcases hmem with hmem | hmem
      · exact ih _ _ hmem
      · omega

/-- `Nat.digitChar` is injective on digits. -/
theorem digitChar_inj_lt10 :
    ∀ d1, d1 < 10 → ∀ d2, d2 < 10 → Nat.digitChar d1 = Nat.digitChar d2 → d1 = d2 := by
  decide

/-- Mapping `Nat.digitChar` over digit lists is injective. -/
theorem map_digitChar_inj :
    ∀ (l1 l2 : List Nat), (∀ d ∈ l1, d < 10) → (∀ d ∈ l2, d < 10) →
      l1.map Nat.digitChar = l2.map Nat.digitChar → l1 = l2 := by
  intro l1
  induction l1 with
  | nil =>
    intro l2 _ _ hmap
    cases l2 with
    | nil => rfl
    | cons b bs => simp at hmap
  | cons a as ih =>
    intro l2 h1 h2 hmap
    cases l2 with
    | nil => simp at hmap
    | cons b bs =>
      simp only [List.map_cons, List.cons.injEq] at hmap
      have ha : a = b :=
        digitChar_inj_lt10 a (h1 a (by simp)) b (h2 b (by simp)) hmap.1
      have hrest := ih bs (fun d hd => h1 d (by simp [hd])) (fun d hd => h2 d (by simp [hd])) hmap.2
      rw [ha, hrest]

/-- Decimal rendering is injective (at the character-list level). -/
theorem decRepr_inj (m n : Nat) (h : (decRepr m).data = (decRepr n).data) : m = n := by
  have hl : (decDigits m).map Nat.digitChar = (decDigits n).map Nat.digitChar := h
  have hd := map_digitChar_inj _ _
    (fun d hd => decDigitsAux_lt_ten _ _ _ hd)
    (fun d hd => decDigitsAux_lt_ten _ _ _ hd) hl
  have hv := congrArg ofDecDigits hd
  simp only [decDigits] at hv
  rwa [ofDecDigits_decDigitsAux _ _ (Nat.lt_succ_self m),
       ofDecDigits_decDigitsAux _ _ (Nat.lt_succ_self n)] at hv

/-- Character data of a string concatenation. -/
theorem data_append : ∀ (s t : String), (s ++ t).data = s.data ++ t.data :=
  fun ⟨_⟩ ⟨_⟩ => rfl

/-- If some index below the remaining count has a failed detail round
trip, the fetch loop returns an error. -/
theorem fetch_fails (comm : Request → Except String ResponsePacket) :
    ∀ (n i : Nat), (∃ k, k < n ∧ badDetail (comm (.sourceData (i + k))) = true) →
      ∃ msg, fetchSourcesFrom comm i n = .error msg := by
  intro n
  induction n with
  | zero => intro i ⟨k, hk, _⟩; omega
  | succ m ih =>
    intro i ⟨k, hk, hbad⟩
    cases hc : comm (.sourceData i) with
    | error msg =>
      exact ⟨"Failed to get sourcedata response", by simp [fetchSourcesFrom, hc]⟩
    | ok p =>
      cases p with
      | sourceData d =>
        have hk0 : k ≠ 0 := by
          intro h0
          rw [h0, Nat.add_zero] at hbad
          rw [hc] at hbad
          simp [badDetail] at hbad
        obtain ⟨j, rfl⟩ : ∃ j, k = j + 1 := ⟨k - 1, by omega⟩
        obtain ⟨msg, hmsg⟩ := ih (i + 1) ⟨j, by omega, by
          have : i + 1 + j = i + (j + 1) := by omega
          rw [this]; exact hbad⟩
        exact ⟨msg, by simp [fetchSourcesFrom, hc, hmsg]⟩
      | sources r =>
        exact ⟨"Got wrong 'sourcedata' response", by simp [fetchSourcesFrom, hc]⟩
      | trackingPkt t =>
        exact ⟨"Got wrong 'sourcedata' response", by simp [fetchSourcesFrom, hc]⟩
      | serverStats r =>
        exact ⟨"Got wrong 'sourcedata' response", by simp [fetchSourcesFrom, hc]⟩
      | serverStats2 r =>
        exact ⟨"Got wrong 'sourcedata' response", by simp [fetchSourcesFrom, hc]⟩
      | serverStats3 r =>
        exact ⟨"Got wrong 'sourcedata' response", by simp [fetchSourcesFrom, hc]⟩
      | serverStats4 r =>
        exact ⟨"Got wrong 'sourcedata' response", by simp [fetchSourcesFrom, hc]⟩

/-- A failed detail round trip below the reported source count makes
the whole sources query fail without emitting anything. -/
theorem getSources_fails (e : Exporter) (comm : Request → Except String ResponsePacket)
    (lookup : String → Option (List String)) (N : ReplySources)
    (hs : comm .sources = .ok (.sources N))
    (hk : ∃ k, k < N.NSources ∧ badDetail (comm (.sourceData k)) = true) :
    (getSourcesMetrics e comm lookup).1 = [] ∧
      ∃ msg, (getSourcesMetrics e comm lookup).2 = some msg := by
  obtain ⟨k, hkn, hbad⟩ := hk
  obtain ⟨msg, hmsg⟩ := fetch_fails comm N.NSources 0 ⟨k, hkn, by simpa using hbad⟩
  refine ⟨?_, msg, ?_⟩ <;> simp [getSourcesMetrics, hs, hmsg]

/-! ## Claim theorems -/

/-- C3: each supported server-statistics variant is normalized by
`parseServerStatsPacket` into the canonical record carrying exactly the
variant's own field values, with every field the variant does not carry
equal to zero; the fields of the oldest variant (NTPHits, CMDHits,
NTPDrops, CMDDrops, LogDrops) are preserved identically by all four
variants. -/
theorem parse_server_stats_variant_normalization :
    (∀ s : ReplyServerStats,
      parseServerStatsPacket (.serverStats s) =
        .ok { NTPHits := s.NTPHits, NKEHits := 0, CMDHits := s.CMDHits,
              NTPDrops := s.NTPDrops, NKEDrops := 0, CMDDrops := s.CMDDrops,
              LogDrops := s.LogDrops, NTPAuthHits := 0, NTPInterleavedHits := 0,
              NTPTimestamps := 0, NTPSpanSeconds := 0,
              NTPDaemonRxtimestamps := 0, NTPDaemonTxtimestamps := 0,
              NTPKernelRxtimestamps := 0, NTPKernelTxtimestamps := 0,
              NTPHwRxTimestamps := 0, NTPHwTxTimestamps := 0 }) ∧
    (∀ s : ReplyServerStats2,
      parseServerStatsPacket (.serverStats2 s) =
        .ok { NTPHits := s.NTPHits, NKEHits := s.NKEHits, CMDHits := s.CMDHits,
              NTPDrops := s.NTPDrops, NKEDrops := s.NKEDrops, CMDDrops := s.CMDDrops,
              LogDrops := s.LogDrops, NTPAuthHits := s.NTPAuthHits,
              NTPInterleavedHits := 0, NTPTimestamps := 0, NTPSpanSeconds := 0,
              NTPDaemonRxtimestamps := 0, NTPDaemonTxtimestamps := 0,
              NTPKernelRxtimestamps := 0, NTPKernelTxtimestamps := 0,
              NTPHwRxTimestamps := 0, NTPHwTxTimestamps := 0 }) ∧
    (∀ s : ReplyServerStats3,
      parseServerStatsPacket (.serverStats3 s) =
        .ok { NTPHits := s.NTPHits, NKEHits := s.NKEHits, CMDHits := s.CMDHits,
              NTPDrops := s.NTPDrops, NKEDrops := s.NKEDrops, CMDDrops := s.CMDDrops,
              LogDrops := s.LogDrops, NTPAuthHits := s.NTPAuthHits,
              NTPInterleavedHits := s.NTPInterleavedHits,
              NTPTimestamps := s.NTPTimestamps, NTPSpanSeconds := s.NTPSpanSeconds,
              NTPDaemonRxtimestamps := 0, NTPDaemonTxtimestamps := 0,
              NTPKernelRxtimestamps := 0, NTPKernelTxtimestamps := 0,
              NTPHwRxTimestamps := 0, NTPHwTxTimestamps := 0 }) ∧
    (∀ s : ReplyServerStats4, parseServerStatsPacket (.serverStats4 s) = .ok s) := by
  exact ⟨fun s => rfl, fun s => rfl, fun s => rfl, fun s => rfl⟩

/-- C4: an unrecognized reply type is a hard error, never a zero-fill —
`parseServerStatsPacket` rejects every packet outside its four
variants, and `getSourcesMetrics` fails when the sources reply or a
sourcedata reply has the wrong type (emitting no metrics). -/
theorem unrecognized_reply_hard_error :
    (∀ p : ResponsePacket, isServerStatsReply p = false →
      ∃ msg, parseServerStatsPacket p = .error msg) ∧
    (∀ (e : Exporter) (comm : Request → Except String ResponsePacket)
        (lookup : String → Option (List String)) (p : ResponsePacket),
      comm .sources = .ok p → (∀ r, p ≠ .sources r) →
        (getSourcesMetrics e comm lookup).1 = [] ∧
          ∃ msg, (getSourcesMetrics e comm lookup).2 = some msg) ∧
    (∀ (e : Exporter) (comm : Request → Except String ResponsePacket)
        (lookup : String → Option (List String)) (N : ReplySources)
        (k : Nat) (p : ResponsePacket),
      comm .sources = .ok (.sources N) → k < N.NSources →
        comm (.sourceData k) = .ok p → (∀ d, p ≠ .sourceData d) →
          (getSourcesMetrics e comm lookup).1 = [] ∧
            ∃ msg, (getSourcesMetrics e comm lookup).2 = some msg) := by
  refine ⟨?_, ?_, ?_⟩
  · intro p hp
    cases p with
    | sources r => exact ⟨_, rfl⟩
    | sourceData r => exact ⟨_, rfl⟩
    | trackingPkt t => exact ⟨_, rfl⟩
    | serverStats r => simp [isServerStatsReply] at hp
    | serverStats2 r => simp [isServerStatsReply] at hp
    | serverStats3 r => simp [isServerStatsReply] at hp
    | serverStats4 r => simp [isServerStatsReply] at hp
  · intro e comm lookup p hcomm hne
    cases p with
    | sources r => exact absurd rfl (hne r)
    | sourceData r =>
      exact ⟨by simp [getSourcesMetrics, hcomm],
             "Got wrong 'sources' response", by simp [getSourcesMetrics, hcomm]⟩
    | trackingPkt t =>
      exact ⟨by simp [getSourcesMetrics, hcomm],
             "Got wrong 'sources' response", by simp [getSourcesMetrics, hcomm]⟩
    | serverStats r =>
      exact ⟨by simp [getSourcesMetrics, hcomm],
             "Got wrong 'sources' response", by simp [getSourcesMetrics, hcomm]⟩
    | serverStats2 r =>
      exact ⟨by simp [getSourcesMetrics, hcomm],
             "Got wrong 'sources' response", by simp [getSourcesMetrics, hcomm]⟩
    | serverStats3 r =>
      exact ⟨by simp [getSourcesMetrics, hcomm],
             "Got wrong 'sources' response", by simp [getSourcesMetrics, hcomm]⟩
    | serverStats4 r =>
      exact ⟨by simp [getSourcesMetrics, hcomm],
             "Got wrong 'sources' response", by simp [getSourcesMetrics, hcomm]⟩
  · intro e comm lookup N k p hs hk hck hne
    refine getSources_fails e comm lookup N hs ⟨k, hk, ?_⟩
    rw [hck]
    cases p with
    | sourceData d => exact absurd rfl (hne d)
    | sources r => rfl
    | trackingPkt t => rfl
    | serverStats r => rfl
    | serverStats2 r => rfl
    | serverStats3 r => rfl
    | serverStats4 r => rfl

/-- C4 witness: concrete instances — a sources-count packet fed to the
server-stats parser is rejected; a sources query whose count reply,
resp. whose first detail reply, has the wrong type fails without
emitting metrics. -/
theorem unrecognized_reply_hard_error_witness :
    (∃ msg, parseServerStatsPacket (.sources { NSources := 3 }) = .error msg) ∧
    ((getSourcesMetrics eOff commWrongSources lookupNone).1 = [] ∧
      ∃ msg, (getSourcesMetrics eOff commWrongSources lookupNone).2 = some msg) ∧
    ((getSourcesMetrics eOff commWrongDetail lookupNone).1 = [] ∧
      ∃ msg, (getSourcesMetrics eOff commWrongDetail lookupNone).2 = some msg) :=
  ⟨unrecognized_reply_hard_error.1 (.sources { NSources := 3 }) rfl,
   unrecognized_reply_hard_error.2.1 eOff commWrongSources lookupNone
     (.trackingPkt tFix) rfl (fun r hr => nomatch hr),
   unrecognized_reply_hard_error.2.2 eOff commWrongDetail lookupNone
     { NSources := 1 } 0 (.trackingPkt tFix) rfl (by decide) rfl
     (fun d hd => nomatch hd)⟩

/-- C10: the sources query is all-or-nothing — when the count reply
reports N sources and the detail round trip (or its type check) fails
at some index below N, `getSourcesMetrics` returns an error and emits
no metric at all. -/
theorem sources_all_or_nothing (e : Exporter)
    (comm : Request → Except String ResponsePacket)
    (lookup : String → Option (List String)) (N : ReplySources) (k : Nat)
    (hs : comm .sources = .ok (.sources N)) (hk : k < N.NSources)
    (hbad : badDetail (comm (.sourceData k)) = true) :
    (getSourcesMetrics e comm lookup).1 = [] ∧
      ∃ msg, (getSourcesMetrics e comm lookup).2 = some msg :=
  getSources_fails e comm lookup N hs ⟨k, hk, hbad⟩

/-- C10 witness: two sources reported, every detail round trip times
out — the sources query fails and emits nothing. -/
theorem sources_all_or_nothing_witness :
    (getSourcesMetrics eOff commDetailErr lookupNone).1 = [] ∧
      ∃ msg, (getSourcesMetrics eOff commDetailErr lookupNone).2 = some msg :=
  sources_all_or_nothing eOff commDetailErr lookupNone { NSources := 2 } 0
    rfl (by decide) rfl

/-- C5: for every 8-bit reachability value, the emitted reachability
ratio is popcount divided by 8 and the emitted last-poll success is the
least significant bit; in particular byte 1 yields ratio 0.125 and
success 1, byte 255 yields ratio 1, and byte 0 yields ratio 0 and
success 0. -/
theorem sources_reachability_metrics (e : Exporter)
    (lookup : String → Option (List String)) (r : ReplySourceData)
    (h : r.Reachability < 256) :
    (∃ nm,
      (sourceRecordMetrics e lookup r)[1]? =
        some (.sourcesReachability r.IPAddr.repr nm ((popCount8 r.Reachability : Rat) / 8)) ∧
      (sourceRecordMetrics e lookup r)[2]? =
        some (.sourcesReachSuccess r.IPAddr.repr nm ((r.Reachability % 2 : Nat) : Rat))) ∧
    (sourceRecordMetrics eOff lookupNone (pollRec 6 1))[1]? =
      some (.sourcesReachability "192.0.2.1" "192.0.2.1" 0.125) ∧
    (sourceRecordMetrics eOff lookupNone (pollRec 6 1))[2]? =
      some (.sourcesReachSuccess "192.0.2.1" "192.0.2.1" 1) ∧
    (sourceRecordMetrics eOff lookupNone (pollRec 6 255))[1]? =
      some (.sourcesReachability "192.0.2.1" "192.0.2.1" 1) ∧
    (sourceRecordMetrics eOff lookupNone (pollRec 6 0))[1]? =
      some (.sourcesReachability "192.0.2.1" "192.0.2.1" 0) ∧
    (sourceRecordMetrics eOff lookupNone (pollRec 6 0))[2]? =
      some (.sourcesReachSuccess "192.0.2.1" "192.0.2.1" 0) := by
  have hm : r.Reachability % 256 = r.Reachability := Nat.mod_eq_of_lt h
  refine ⟨⟨if r.Mode = SourceMode.ref ∧ r.IPAddr.isV4 = true
             then refidToString r.IPAddr.be32
             else dnsLookup e lookup r.IPAddr.repr, ?_, ?_⟩, ?_, ?_, ?_, ?_, ?_⟩
  · simp [sourceRecordMetrics, hm]
  · simp [sourceRecordMetrics, hm]
  · have h1 : popCount8 (1 % 256) = 1 := by decide
    simp [sourceRecordMetrics, pollRec, ipFix, eOff, dnsLookup, lookupNone, h1]
    norm_num
  · simp [sourceRecordMetrics, pollRec, ipFix, eOff, dnsLookup, lookupNone]
  · have h255 : popCount8 (255 % 256) = 8 := by decide
    simp [sourceRecordMetrics, pollRec, ipFix, eOff, dnsLookup, lookupNone, h255]
  · have h0 : popCount8 (0 % 256) = 0 := by decide
    simp [sourceRecordMetrics, pollRec, ipFix, eOff, dnsLookup, lookupNone, h0]
  · simp [sourceRecordMetrics, pollRec, ipFix, eOff, dnsLookup, lookupNone]

/-- C5 witness: the reachability byte 1 of a concrete source record is
below 256 and produces the claimed ratio and success metrics. -/
theorem sources_reachability_metrics_witness :
    (pollRec 6 1).Reachability < 256 ∧
    (∃ nm,
      (sourceRecordMetrics eOff lookupNone (pollRec 6 1))[1]? =
        some (.sourcesReachability (pollRec 6 1).IPAddr.repr nm
          ((popCount8 (pollRec 6 1).Reachability : Rat) / 8)) ∧
      (sourceRecordMetrics eOff lookupNone (pollRec 6 1))[2]? =
        some (.sourcesReachSuccess (pollRec 6 1).IPAddr.repr nm
          (((pollRec 6 1).Reachability % 2 : Nat) : Rat))) :=
  ⟨by decide,
   (sources_reachability_metrics eOff lookupNone (pollRec 6 1) (by decide)).1⟩

/-- C6: the emitted polling-interval metric is two raised to the
record's poll exponent, in seconds; in particular exponent 6 yields 64
seconds and exponent minus one yields half a second. -/
theorem sources_poll_interval_metric (e : Exporter)
    (lookup : String → Option (List String)) (r : ReplySourceData) :
    (∃ nm,
      (sourceRecordMetrics e lookup r)[5]? =
        some (.sourcesPollInterval r.IPAddr.repr nm ((2 : Rat) ^ r.Poll))) ∧
    (sourceRecordMetrics eOff lookupNone (pollRec 6 1))[5]? =
      some (.sourcesPollInterval "192.0.2.1" "192.0.2.1" 64) ∧
    (sourceRecordMetrics eOff lookupNone (pollRec (-1) 1))[5]? =
      some (.sourcesPollInterval "192.0.2.1" "192.0.2.1" 0.5) := by
  refine ⟨⟨if r.Mode = SourceMode.ref ∧ r.IPAddr.isV4 = true
             then refidToString r.IPAddr.be32
             else dnsLookup e lookup r.IPAddr.repr, ?_⟩, ?_, ?_⟩
  · simp [sourceRecordMetrics]
  · have h64 : (2 : Rat) ^ (6 : Int) = 64 := by norm_num
    simp [sourceRecordMetrics, pollRec, ipFix, eOff, dnsLookup, lookupNone, h64]
  · have hhalf : (2 : Rat) ^ (-1 : Int) = 0.5 := by norm_num
    simp [sourceRecordMetrics, pollRec, ipFix, eOff, dnsLookup, lookupNone, hhalf]

/-- C1: when the dial succeeds, the availability observation is 1 if
and only if every enabled query succeeds; every enabled query is
attempted regardless of earlier failures, and the availability value
is among the emitted metrics. -/
theorem collect_up_iff_enabled_queries (e : Exporter) (w : World)
    (h : (dial e w).err = none) :
    ((Collect e w).up = 1 ↔
      ((e.collectSources = true → qOk w.sourcesResult = true) ∧
       (e.collectTracking = true → qOk w.trackingResult = true) ∧
       (e.collectServerstats = true → qOk w.serverstatsResult = true))) ∧
    (Collect e w).attempted =
      (if e.collectSources then [QueryKind.sources] else []) ++
      (if e.collectTracking then [QueryKind.tracking] else []) ++
      (if e.collectServerstats then [QueryKind.serverstats] else []) ∧
    Metric.up ((Collect e w).up) ∈ (Collect e w).metrics := by
  cases hs : e.collectSources <;> cases ht : e.collectTracking <;>
    cases hv : e.collectServerstats <;>
      cases hrs : w.sourcesResult <;> cases hrt : w.trackingResult <;>
        cases hrv : w.serverstatsResult <;>
          simp [Collect, h, runQuery, qOk, hs, ht, hv, hrs, hrt, hrv]

/-- C1 witness: transport connects, tracking fails while sources and
serverstats succeed — availability is not 1 (the iff instance), all
three queries were attempted. -/
theorem collect_up_iff_enabled_queries_witness :
    (dial eOff wPartial).err = none ∧
    (((Collect eOff wPartial).up = 1 ↔
      ((eOff.collectSources = true → qOk wPartial.sourcesResult = true) ∧
       (eOff.collectTracking = true → qOk wPartial.trackingResult = true) ∧
       (eOff.collectServerstats = true → qOk wPartial.serverstatsResult = true))) ∧
    (Collect eOff wPartial).attempted =
      (if eOff.collectSources then [QueryKind.sources] else []) ++
      (if eOff.collectTracking then [QueryKind.tracking] else []) ++
      (if eOff.collectServerstats then [QueryKind.serverstats] else []) ∧
    Metric.up ((Collect eOff wPartial).up) ∈ (Collect eOff wPartial).metrics) :=
  ⟨rfl, collect_up_iff_enabled_queries eOff wPartial rfl⟩

/-- C2: when the dial fails, `Collect` emits exactly one metric, the
availability gauge with value 0, and attempts no query. -/
theorem collect_dial_failure_single_metric (e : Exporter) (w : World) (msg : String)
    (h : (dial e w).err = some msg) :
    (Collect e w).metrics = [Metric.up 0] ∧ (Collect e w).attempted = [] ∧
      (Collect e w).up = 0 := by
  simp [Collect, h]

/-- C2 witness: UDP dial failure — the scrape output is the single
availability-0 metric and no query ran. -/
theorem collect_dial_failure_single_metric_witness :
    (dial eOff wDialFail).err = some "udp dial error" ∧
    ((Collect eOff wDialFail).metrics = [Metric.up 0] ∧
      (Collect eOff wDialFail).attempted = [] ∧ (Collect eOff wDialFail).up = 0) :=
  ⟨rfl, collect_dial_failure_single_metric eOff wDialFail "udp dial error" rfl⟩

/-- C9: in local-socket mode the cleanup returned by `dial` runs
exactly once on every exit path of `Collect`, and afterwards the
ephemeral peer-path file no longer exists and the channel is closed —
for every combination of dial, chmod and query outcomes. -/
theorem collect_unix_cleanup (e : Exporter) (w : World)
    (h : isUnixAddr e.address = true) :
    (Collect e w).cleanupRuns = 1 ∧
      (Collect e w).final.sockFile = false ∧
      (Collect e w).final.connOpen = false := by
  cases hu : w.unixDialOk <;> cases hc : e.chmodSocket <;> cases hk : w.chmodOk <;>
    cases hrs : w.sourcesResult <;> cases hrt : w.trackingResult <;>
      cases hrv : w.serverstatsResult <;>
        simp [Collect, dial, h, hu, hc, hk, hrs, hrt, hrv, runCleanup, runQuery]

/-- C9 witness: a unixgram scrape (chmod requested) with a failing
tracking query still runs the cleanup once and leaves neither the peer
file nor an open channel. -/
theorem collect_unix_cleanup_witness :
    isUnixAddr eUnix.address = true ∧
    ((Collect eUnix wPartial).cleanupRuns = 1 ∧
      (Collect eUnix wPartial).final.sockFile = false ∧
      (Collect eUnix wPartial).final.connOpen = false) :=
  ⟨rfl, collect_unix_cleanup eUnix wPartial rfl⟩

/-- C7 counterexample: two concurrent scrapes of the same process (same
pid 42, distinct scrape ids 1 and 2) bind the SAME local peer path —
the path depends only on the address directory and the pid, so
same-process scrapes collide rather than getting distinct paths. -/
theorem same_process_scrapes_share_path :
    scrapeLocalPath "unix:///run/chrony/chronyd.sock" 42 1 =
      scrapeLocalPath "unix:///run/chrony/chronyd.sock" 42 2 ∧
    scrapeLocalPath "unix:///run/chrony/chronyd.sock" 42 1 =
      "/run/chrony/chrony_exporter.42.sock" := by
  exact ⟨rfl, by decide⟩

/-- C7 amended: the local peer path embeds the process id, so scrapes
in processes with distinct pids bind distinct paths; two scrapes within
one process (same pid) share the identical path. -/
theorem local_path_pid_uniqueness (a : String) (p1 p2 : Nat) (h : p1 ≠ p2) :
    dialLocalPath a p1 ≠ dialLocalPath a p2 ∧
    ∀ s1 s2 : Nat, scrapeLocalPath a p1 s1 = scrapeLocalPath a p1 s2 := by
  refine ⟨?_, fun s1 s2 => rfl⟩
  intro he
  apply h
  have hd := congrArg String.data he
  simp only [dialLocalPath, data_append] at hd
  have h1 := List.append_cancel_left hd
  have h2 := List.append_cancel_right h1
  have h3 := List.append_cancel_left h2
  exact decRepr_inj p1 p2 h3

/-- C7 amended witness: pids 42 and 43 give distinct peer paths, and
scrapes 1 and 2 of process 42 share theirs. -/
theorem local_path_pid_uniqueness_witness :
    (42 : Nat) ≠ 43 ∧
    (dialLocalPath "unix:///run/chrony/chronyd.sock" 42 ≠
       dialLocalPath "unix:///run/chrony/chronyd.sock" 43 ∧
     ∀ s1 s2 : Nat,
       scrapeLocalPath "unix:///run/chrony/chronyd.sock" 42 s1 =
         scrapeLocalPath "unix:///run/chrony/chronyd.sock" 42 s2) :=
  ⟨by decide,
   local_path_pid_uniqueness "unix:///run/chrony/chronyd.sock" 42 43 (by decide)⟩

/-- C8 counterexample: with reverse lookups enabled and a lookup
returning two names, the sources renderer `dnsLookup` strips, sorts,
dedups and comma-joins, while the tracking renderer `chronyFormatName`
returns only the first name stripped — the two renderings differ. -/
theorem name_rendering_divergence :
    dnsLookup eOn lookupTwoNames "192.0.2.1" = "a.example,b.example" ∧
    chronyFormatName eOn lookupTwoNames tFix = "b.example" ∧
    dnsLookup eOn lookupTwoNames "192.0.2.1" ≠
      chronyFormatName eOn lookupTwoNames tFix := by
  refine ⟨by decide, by decide, by decide⟩

/-- C8 amended: `dnsLookup` renders multiple names by stripping
trailing root-domain dots, sorting, removing adjacent duplicates and
joining with commas, while `chronyFormatName` renders only the first
returned name stripped of trailing dots; the two renderings coincide
whenever the lookup yields exactly one name. -/
theorem name_rendering_single_name_agree (e : Exporter)
    (lookup : String → Option (List String)) (t : Tracking) (nm : String)
    (hdns : e.dnsLookups = true) (huns : t.IPAddr.isUnspecified = false)
    (hl : lookup t.IPAddr.repr = some [nm]) :
    dnsLookup e lookup t.IPAddr.repr = trimRightDot nm ∧
    chronyFormatName e lookup t = trimRightDot nm := by
  constructor
  · simp [dnsLookup, hdns, hl, sortStrings, insertSorted, compact, joinComma]
  · simp [chronyFormatName, hdns, huns, hl]

/-- C8 amended witness: a single-name lookup makes both renderers agree
on the dot-stripped name. -/
theorem name_rendering_single_name_agree_witness :
    eOn.dnsLookups = true ∧ tFix.IPAddr.isUnspecified = false ∧
    lookupOneName tFix.IPAddr.repr = some ["c.example."] ∧
    (dnsLookup eOn lookupOneName tFix.IPAddr.repr = trimRightDot "c.example." ∧
     chronyFormatName eOn lookupOneName tFix = trimRightDot "c.example.") :=
  ⟨rfl, rfl, rfl,
   name_rendering_single_name_agree eOn lookupOneName tFix "c.example." rfl rfl rfl⟩

end Chrony
